import Mathlib

/-!
Verification of the WebSocket protocol engine of `tornado/websocket.py`
(class `WebSocketProtocol13` and its helpers), as a shallow embedding.

Bytes are modelled as `List Nat` with each element in `[0, 256)`.  Machine
integers are plain `Nat` with explicit `% 2^32` where the Python code relies
on fixed-width arithmetic (SHA-1).  The asynchronous read pipeline
(`_receive_frame` / `_on_frame_start` / `_on_frame_data`) is collapsed into a
pure step function on a connection-state record: each incoming frame is
presented already split into its decoded header fields and payload, and the
side effects of the Python code (frames written to the stream, handler
callbacks invoked, the socket being closed, the close-handshake timeout)
are recorded explicitly in the state.
-/

namespace Tornado

/-! ## Byte-level helpers -/

/-- Big-endian 16-bit encoding, `struct.pack('>H', n)`. -/
def pack16be (n : Nat) : List Nat := [n / 256 % 256, n % 256]

/-- Big-endian 64-bit encoding, `struct.pack('!Q', n)`. -/
def pack64be (n : Nat) : List Nat :=
  [n / 2 ^ 56 % 256, n / 2 ^ 48 % 256, n / 2 ^ 40 % 256, n / 2 ^ 32 % 256,
   n / 2 ^ 24 % 256, n / 2 ^ 16 % 256, n / 2 ^ 8 % 256, n % 256]

/-- Big-endian decoding of a byte list (the reading direction of
`struct.unpack("!H")` / `struct.unpack("!Q")`). -/
def decodeBE (bs : List Nat) : Nat := bs.foldl (fun acc b => acc * 256 + b) 0

/-- UTF-8 encoding of one code point (what CPython's `str.encode("utf-8")`
does per character); used to model `tornado.escape.utf8`. -/
def utf8EncodeChar (c : Nat) : List Nat :=
  if c < 0x80 then [c]
  else if c < 0x800 then [0xC0 ||| c / 64, 0x80 ||| c % 64]
  else if c < 0x10000 then
    [0xE0 ||| c / 4096, 0x80 ||| c / 64 % 64, 0x80 ||| c % 64]
  else
    [0xF0 ||| c / 262144, 0x80 ||| c / 4096 % 64, 0x80 ||| c / 64 % 64,
     0x80 ||| c % 64]

/-- `tornado.escape.utf8` on a `str`: UTF-8 bytes of the string. -/
def utf8Encode (s : String) : List Nat :=
  (s.toList.map (fun ch => utf8EncodeChar ch.toNat)).flatten

/-- Whether a byte is a UTF-8 continuation byte (`0x80..0xBF`). -/
def isCont (b : Nat) : Bool := 0x80 ≤ b && b ≤ 0xBF

/-- Strict UTF-8 validity of a byte sequence: exactly the byte sequences
accepted by CPython's `bytes.decode("utf-8")` (rejecting overlong forms,
surrogates and code points above `0x10FFFF`).  Models the
`data.decode("utf-8")` / `UnicodeDecodeError` test in `_handle_message`. -/
def utf8Valid : List Nat → Bool
  | [] => true
  | b :: rest =>
    if b < 0x80 then utf8Valid rest
    else if 0xC2 ≤ b && b ≤ 0xDF then
      match rest with
      | b1 :: r => isCont b1 && utf8Valid r
      | _ => false
    else if b == 0xE0 then
      match rest with
      | b1 :: b2 :: r => (0xA0 ≤ b1 && b1 ≤ 0xBF) && isCont b2 && utf8Valid r
      | _ => false
    else if (0xE1 ≤ b && b ≤ 0xEC) || b == 0xEE || b == 0xEF then
      match rest with
      | b1 :: b2 :: r => isCont b1 && isCont b2 && utf8Valid r
      | _ => false
    else if b == 0xED then
      match rest with
      | b1 :: b2 :: r => (0x80 ≤ b1 && b1 ≤ 0x9F) && isCont b2 && utf8Valid r
      | _ => false
    else if b == 0xF0 then
      match rest with
      | b1 :: b2 :: b3 :: r =>
          (0x90 ≤ b1 && b1 ≤ 0xBF) && isCont b2 && isCont b3 && utf8Valid r
      | _ => false
    else if 0xF1 ≤ b && b ≤ 0xF3 then
      match rest with
      | b1 :: b2 :: b3 :: r => isCont b1 && isCont b2 && isCont b3 && utf8Valid r
      | _ => false
    else if b == 0xF4 then
      match rest with
      | b1 :: b2 :: b3 :: r =>
          (0x80 ≤ b1 && b1 ≤ 0x8F) && isCont b2 && isCont b3 && utf8Valid r
      | _ => false
    else false

/-! ## SHA-1 (`hashlib.sha1`), needed by `compute_accept_value` -/

/-- Left rotation of a 32-bit word. -/
def rotl32 (n x : Nat) : Nat := (x * 2 ^ n % 2 ^ 32) ||| x / 2 ^ (32 - n)

/-- SHA-1 padding: append `0x80`, zero-pad to 56 mod 64, append the 64-bit
big-endian bit length. -/
def sha1Pad (msg : List Nat) : List Nat :=
  let zeros := (120 - (msg.length + 1) % 64) % 64
  msg ++ 0x80 :: List.replicate zeros 0 ++ pack64be (msg.length * 8)

/-- Group bytes into big-endian 32-bit words. -/
def bytesToWords : List Nat → List Nat
  | b0 :: b1 :: b2 :: b3 :: rest =>
      (((b0 * 256 + b1) * 256 + b2) * 256 + b3) :: bytesToWords rest
  | _ => []

/-- Split a word list into 16-word blocks (structurally, so that it reduces
inside the kernel; a trailing short block cannot arise from padded input). -/
def chunk16 : List Nat → List (List Nat)
  | w0 :: w1 :: w2 :: w3 :: w4 :: w5 :: w6 :: w7 ::
      w8 :: w9 :: w10 :: w11 :: w12 :: w13 :: w14 :: w15 :: rest =>
      [w0, w1, w2, w3, w4, w5, w6, w7, w8, w9, w10, w11, w12, w13, w14, w15]
        :: chunk16 rest
  | [] => []
  | l => [l]

/-- One step of the SHA-1 message-schedule extension.  The accumulator holds
the words produced so far, most recent first. -/
def sha1ExtendStep (acc : List Nat) : List Nat :=
  rotl32 1 (acc.getD 2 0 ^^^ acc.getD 7 0 ^^^ acc.getD 13 0 ^^^ acc.getD 15 0)
    :: acc

/-- The 80-word SHA-1 message schedule of one 16-word block. -/
def sha1Schedule (block : List Nat) : List Nat :=
  ((List.range 64).foldl (fun acc _ => sha1ExtendStep acc) block.reverse).reverse

/-- One round of the SHA-1 compression function. -/
def sha1Round (st : Nat × Nat × Nat × Nat × Nat) (iw : Nat × Nat) :
    Nat × Nat × Nat × Nat × Nat :=
  let (a, b, c, d, e) := st
  let (i, w) := iw
  let f :=
    if i < 20 then (b &&& c) ||| ((b ^^^ 0xFFFFFFFF) &&& d)
    else if i < 40 then b ^^^ c ^^^ d
    else if i < 60 then (b &&& c) ||| (b &&& d) ||| (c &&& d)
    else b ^^^ c ^^^ d
  let k :=
    if i < 20 then 0x5A827999
    else if i < 40 then 0x6ED9EBA1
    else if i < 60 then 0x8F1BBCDC
    else 0xCA62C1D6
  ((rotl32 5 a + f + e + k + w) % 2 ^ 32, a, rotl32 30 b, c, d)

/-- Process one 16-word block against the running hash state. -/
def sha1Block (h : Nat × Nat × Nat × Nat × Nat) (block : List Nat) :
    Nat × Nat × Nat × Nat × Nat :=
  let (h0, h1, h2, h3, h4) := h
  let ws := sha1Schedule block
  let (a, b, c, d, e) :=
    (((List.range 80).zip ws).foldl sha1Round (h0, h1, h2, h3, h4))
  ((h0 + a) % 2 ^ 32, (h1 + b) % 2 ^ 32, (h2 + c) % 2 ^ 32,
   (h3 + d) % 2 ^ 32, (h4 + e) % 2 ^ 32)

/-- SHA-1 digest (20 bytes) of a byte sequence. -/
def sha1 (msg : List Nat) : List Nat :=
  let blocks := chunk16 (bytesToWords (sha1Pad msg))
  let (h0, h1, h2, h3, h4) :=
    blocks.foldl sha1Block (0x67452301, 0xEFCDAB89, 0x98BADCFE, 0x10325476,
      0xC3D2E1F0)
  (pack64be h0).drop 4 ++ (pack64be h1).drop 4 ++ (pack64be h2).drop 4 ++
    (pack64be h3).drop 4 ++ (pack64be h4).drop 4

/-! ## Base64 (`base64.b64encode`, which returns bytes) -/

/-- The base64 alphabet, as ASCII byte values. -/
def b64Alphabet : List Nat :=
  utf8Encode "ABCDEFGHIJKLMNOPQRSTUVWXYZabcdefghijklmnopqrstuvwxyz0123456789+/"

/-- Alphabet lookup for a 6-bit group. -/
def b64Byte (n : Nat) : Nat := b64Alphabet.getD n 65

/-- Standard base64 encoding with `=` (byte 61) padding, `base64.b64encode`
(bytes to bytes, as in Python). -/
def b64encode : List Nat → List Nat
  | b0 :: b1 :: b2 :: rest =>
      b64Byte (b0 / 4) :: b64Byte (b0 % 4 * 16 + b1 / 16) ::
        b64Byte (b1 % 16 * 4 + b2 / 64) :: b64Byte (b2 % 64) :: b64encode rest
  | [b0, b1] =>
      [b64Byte (b0 / 4), b64Byte (b0 % 4 * 16 + b1 / 16),
       b64Byte (b1 % 16 * 4), 61]
  | [b0] => [b64Byte (b0 / 4), b64Byte (b0 % 4 * 16), 61, 61]
  | [] => []

/-! ## `WebSocketProtocol13.compute_accept_value` -/

/-- The fixed GUID appended to the key, websocket.py line 530. -/
def wsMagicGUID : List Nat := utf8Encode "258EAFA5-E914-47DA-95CA-C5AB0DC85B11"

/-- `WebSocketProtocol13.compute_accept_value` (websocket.py lines 523-531):
base64 of the SHA-1 digest of the UTF-8 key bytes followed by the magic
GUID.  The result is the byte string returned by `base64.b64encode`; the
enclosing `native_str` only changes the Python-level type of those same
ASCII bytes. -/
def compute_accept_value (key : String) : List Nat :=
  b64encode (sha1 (utf8Encode key ++ wsMagicGUID))

/-! ## Outgoing frames: `_websocket_mask`, `_write_frame`, `write_message`,
`write_ping` -/

/-- `tornado.util._websocket_mask`: XOR each payload byte with the mask byte
at the same index modulo 4.  The auxiliary index `i` is the position of the
current byte in the original payload. -/
def websocket_mask_from (mask : List Nat) : Nat → List Nat → List Nat
  | _, [] => []
  | i, b :: bs => (b ^^^ mask.getD (i % 4) 0) :: websocket_mask_from mask (i + 1) bs

/-- `_websocket_mask mask data`: the masked payload. -/
def websocket_mask (mask data : List Nat) : List Nat :=
  websocket_mask_from mask 0 data

/-- `WebSocketProtocol13._write_frame` (websocket.py lines 635-661), as the
byte string written to the stream.  `mask_outgoing` is the field of the same
name (true on client connections); `mask` stands for the 4 bytes that
`os.urandom(4)` produced, passed explicitly since it is the only
nondeterministic input. -/
def write_frame (mask_outgoing : Bool) (fin : Bool) (opcode : Nat)
    (data : List Nat) (flags : Nat) (mask : List Nat) : List Nat :=
  let finbit := if fin then 0x80 else 0
  let frame0 := finbit ||| opcode ||| flags
  let l := data.length
  let mask_bit := if mask_outgoing then 0x80 else 0
  let lenBytes :=
    if l < 126 then [l ||| mask_bit]
    else if l ≤ 0xFFFF then (126 ||| mask_bit) :: pack16be l
    else (127 ||| mask_bit) :: pack64be l
  let data := if mask_outgoing then mask ++ websocket_mask mask data else data
  frame0 :: (lenBytes ++ data)

/-- `WebSocketProtocol13.write_message` (websocket.py lines 662-675):
choose the opcode from `binary`, optionally compress setting RSV1, and emit
one final frame.  The per-connection compressor is passed as an optional
function (it wraps zlib, which is outside this repository). -/
def write_message (mask_outgoing : Bool)
    (compressor : Option (List Nat → List Nat)) (mask : List Nat)
    (message : List Nat) (binary : Bool) : List Nat :=
  let opcode := if binary then 0x2 else 0x1
  match compressor with
  | some c => write_frame mask_outgoing true opcode (c message) 0x40 mask
  | none => write_frame mask_outgoing true opcode message 0 mask

/-- `WebSocketProtocol13.write_ping` (websocket.py lines 677-680). -/
def write_ping (mask_outgoing : Bool) (mask : List Nat) (data : List Nat) :
    List Nat :=
  write_frame mask_outgoing true 0x9 data 0 mask

/-! ## permessage-deflate wrappers (zlib itself is external to the repo and
is therefore a parameter: a raw DEFLATE codec where `rawCompress` models
`compressor.compress(data) + compressor.flush(zlib.Z_SYNC_FLUSH)` and
`rawDecompress` models `decompressor.decompress`) -/

/-- A raw zlib codec pair. -/
structure ZlibCodec where
  rawCompress : List Nat → List Nat
  rawDecompress : List Nat → List Nat

/-- The implicit DEFLATE trailer produced by `Z_SYNC_FLUSH`. -/
def deflateTrailer : List Nat := [0x00, 0x00, 0xFF, 0xFF]

/-- `_PerMessageDeflateCompressor.compress` (websocket.py lines 434-439):
run the raw compressor with a sync flush and drop the final 4 bytes
(`data[:-4]`; the code asserts that they are the trailer). -/
def pmdCompress (z : ZlibCodec) (data : List Nat) : List Nat :=
  let out := z.rawCompress data
  out.take (out.length - 4)

/-- `_PerMessageDeflateDecompressor.decompress` (websocket.py lines
458-460): append the trailer and inflate. -/
def pmdDecompress (z : ZlibCodec) (data : List Nat) : List Nat :=
  z.rawDecompress (data ++ deflateTrailer)

/-! ## The connection state machine

State of one `WebSocketProtocol13` connection (server side unless noted),
together with the externally visible effects of the Python code. -/

/-- Externally visible effects of the engine. -/
inductive Event where
  /-- A handler callback `on_message` dispatched through `_run_callback`. -/
  | message (opcode : Nat) (data : List Nat)
  /-- The handler callback `on_pong`. -/
  | pong (data : List Nat)
  /-- A frame handed to `_write_frame` (recorded by its arguments). -/
  | frameSent (fin : Bool) (opcode : Nat) (data : List Nat)
  /-- `app_log.error` from `_run_callback`'s exception handler. -/
  | errorLogged
  deriving DecidableEq, Repr

/-- Connection configuration: the negotiated permessage-deflate
decompressor, when present (`self._decompressor`). -/
structure Config where
  decompressor : Option (List Nat → List Nat)

/-- Mutable state of `WebSocketProtocol13` (and the handler fields it
writes), plus the recorded effects.  `waiting` is `self._waiting`: the
deadline of the scheduled `_abort` timeout, when one is pending; `now` is
the value of `io_loop.time()`.  `raised` records that an uncaught Python
exception (`UnicodeDecodeError` from `to_unicode` on an undecodable close
reason, websocket.py line 822 / escape.py line 215, or `struct.error` from
`struct.pack` on an oversized status code, websocket.py line 843) has
propagated out of the modelled call; every statement after the raise site
is skipped, so the returned state holds exactly the mutations made before
the raise. -/
structure WSState where
  client_terminated : Bool
  server_terminated : Bool
  stream_closed : Bool
  fragmented_message_buffer : Option (List Nat)
  fragmented_message_opcode : Option Nat
  frame_compressed : Bool
  close_code : Option Nat
  close_reason : Option (List Nat)
  waiting : Option Nat
  now : Nat
  events : List Event
  raised : Bool
  deriving DecidableEq, Repr

/-- The initial state of a freshly accepted connection. -/
def initState : WSState :=
  { client_terminated := false, server_terminated := false,
    stream_closed := false, fragmented_message_buffer := none,
    fragmented_message_opcode := none, frame_compressed := false,
    close_code := none, close_reason := none, waiting := none, now := 0,
    events := [], raised := false }

/-- `WebSocketProtocol13.close` (websocket.py lines 834-857): if the server
has not yet terminated, build the close payload (default status 1000 when
only a reason is given) and send a close frame unless the stream is already
closed; then either finish the handshake (peer already terminated: cancel
the pending timeout and close the socket) or schedule `_abort` five seconds
from now.  `struct.pack('>H', code)` (line 843) raises `struct.error` when
the status code does not fit in 16 bits; that happens exactly when the
write block is reached (server not yet terminated, stream still open) with
a code of `0x10000` or more, and the exception escapes `close`, so nothing
after line 843 runs — in particular `server_terminated` is not set and the
timeout logic of lines 848-857 is skipped.  The status-code defaulting of
lines 839-840 is pure, so it is hoisted above the raise test. -/
def close (code : Option Nat) (reason : Option (List Nat)) (st : WSState) :
    WSState :=
  let code := if code.isNone && reason.isSome then some 1000 else code
  if st.server_terminated = false ∧ st.stream_closed = false ∧
      0x10000 ≤ code.getD 0 then
    { st with raised := true }
  else
    let st :=
      if st.server_terminated then st
      else
        let st :=
          if st.stream_closed then st
          else
            let close_data :=
              (match code with
               | none => []
               | some c => pack16be c) ++ reason.getD []
            { st with events := st.events ++ [Event.frameSent true 0x8 close_data] }
        { st with server_terminated := true }
    if st.client_terminated then
      { st with waiting := none, stream_closed := true }
    else if st.waiting.isNone then
      { st with waiting := some (st.now + 5) }
    else st

/-- `WebSocketProtocol._abort` (websocket.py lines 408-413): set both
terminated flags, force-close the stream, then run `close` for cleanup. -/
def ws_abort (st : WSState) : WSState :=
  close none none
    { st with client_terminated := true, server_terminated := true,
              stream_closed := true }

/-- `WebSocketProtocol.on_connection_close` (websocket.py lines 405-406). -/
def on_connection_close (st : WSState) : WSState := ws_abort st

/-- Outcome of a handler callback: either it returns normally or it raises,
in both cases leaving the state its side effects produced. -/
inductive CallbackOutcome where
  | ok (st : WSState)
  | exn (st : WSState)

/-- `WebSocketProtocol._run_callback` (websocket.py lines 393-403): run the
callback; on an uncaught exception, log it and abort the connection.  The
return type `WSState` (not an exception monad) reflects that no exception
escapes this boundary. -/
def run_callback (callback : WSState → CallbackOutcome) (st : WSState) :
    WSState :=
  match callback st with
  | CallbackOutcome.ok st1 => st1
  | CallbackOutcome.exn st1 =>
      ws_abort { st1 with events := st1.events ++ [Event.errorLogged] }

/-- `WebSocketProtocol13._handle_message` (websocket.py lines 796-832):
decompress if the message's compressed flag is set, then dispatch on the
opcode.  Text must decode as UTF-8 or the connection aborts; close frames
record the peer's status code, then decode the remaining bytes with
`to_unicode` (line 822), a strict UTF-8 decode (escape.py line 215) whose
`UnicodeDecodeError` on invalid bytes is not caught — the exception
escapes (`raised`), skipping the reason assignment, the close-frame echo
and the `close()` call of line 824; with a decodable (or absent) reason
the close frame is echoed via `close`.  Pings are answered with pongs;
unknown opcodes abort.  Handler callbacks are modelled as succeeding
(their events are recorded); `run_callback` covers the raising case
separately. -/
def handle_message (cfg : Config) (opcode : Nat) (data : List Nat)
    (st : WSState) : WSState :=
  if st.client_terminated then st
  else
    let data :=
      if st.frame_compressed then (cfg.decompressor.getD id) data else data
    if opcode = 0x1 then
      if utf8Valid data then
        { st with events := st.events ++ [Event.message 0x1 data] }
      else ws_abort st
    else if opcode = 0x2 then
      { st with events := st.events ++ [Event.message 0x2 data] }
    else if opcode = 0x8 then
      let st := { st with client_terminated := true }
      let st :=
        if 2 ≤ data.length then
          { st with close_code := some (data.getD 0 0 * 256 + data.getD 1 0) }
        else st
      if 2 < data.length then
        if utf8Valid (data.drop 2) then
          close st.close_code none
            { st with close_reason := some (data.drop 2) }
        else { st with raised := true }
      else close st.close_code none st
    else if opcode = 0x9 then
      { st with events := st.events ++ [Event.frameSent true 0xA data] }
    else if opcode = 0xA then
      { st with events := st.events ++ [Event.pong data] }
    else ws_abort st

/-- `WebSocketProtocol13._on_frame_data` (websocket.py lines 758-794), with
the final `_handle_message` call inlined into each branch that reaches it:
control frames must be final and bypass the fragmentation state;
continuation frames extend the buffer and, when final, deliver the buffered
message under the original opcode; a fresh data frame may not arrive while
a fragmented message is in progress. -/
def on_frame_data (cfg : Config) (final : Bool) (frame_opcode : Nat)
    (frame_opcode_is_control : Bool) (data : List Nat) (st : WSState) :
    WSState :=
  if frame_opcode_is_control then
    if !final then ws_abort st
    else handle_message cfg frame_opcode data st
  else if frame_opcode = 0 then
    match st.fragmented_message_buffer with
    | none => ws_abort st
    | some buf =>
      if final then
        let opcode := st.fragmented_message_opcode.getD 0
        handle_message cfg opcode (buf ++ data)
          { st with fragmented_message_buffer := none }
      else { st with fragmented_message_buffer := some (buf ++ data) }
  else
    if st.fragmented_message_buffer.isSome then ws_abort st
    else if final then handle_message cfg frame_opcode data st
    else
      { st with fragmented_message_opcode := some frame_opcode,
                fragmented_message_buffer := some data }

/-- The read issued by `_on_frame_start` after a successful header parse:
which bytes the engine asks the stream for next. -/
inductive StartAction where
  /-- `payloadlen < 126`, masked: read the 4-byte masking key, then
  `length` payload bytes. -/
  | readMaskingKey (length : Nat)
  /-- `payloadlen < 126`, unmasked: read `length` payload bytes. -/
  | readFrameData (length : Nat)
  /-- `payloadlen = 126`: read a 2-byte extended length next. -/
  | readLength16 (masked : Bool)
  /-- `payloadlen = 127`: read an 8-byte extended length next. -/
  | readLength64 (masked : Bool)
  deriving DecidableEq, Repr

/-- The header fields `_on_frame_start` stores before issuing its read. -/
structure StartFields where
  final_frame : Bool
  frame_opcode : Nat
  frame_opcode_is_control : Bool
  frame_compressed : Bool
  masked_frame : Bool
  deriving DecidableEq, Repr

/-- `WebSocketProtocol13._on_frame_start` (websocket.py lines 688-721) at
the byte level: decode the two header bytes, absorb RSV1 when a
decompressor is negotiated and the opcode is nonzero, abort (`none`) on a
remaining reserved bit or on a control frame whose 7-bit length field is
126 or more, and otherwise report the parsed fields together with the read
that is issued next — the payload is only read afterwards. -/
def on_frame_start (hasDecompressor : Bool) (prev_compressed : Bool)
    (header payloadbyte : Nat) : Option (StartFields × StartAction) :=
  let final_frame := header &&& 0x80 ≠ 0
  let reserved_bits := header &&& 0x70
  let frame_opcode := header &&& 0x0F
  let frame_opcode_is_control := frame_opcode &&& 0x8 ≠ 0
  let (frame_compressed, reserved_bits) :=
    if hasDecompressor && frame_opcode ≠ 0 then
      (decide (header &&& 0x40 ≠ 0), reserved_bits &&& 0x30)
    else (prev_compressed, reserved_bits)
  if reserved_bits ≠ 0 then none
  else
    let masked_frame := payloadbyte &&& 0x80 ≠ 0
    let payloadlen := payloadbyte &&& 0x7F
    if frame_opcode_is_control ∧ 126 ≤ payloadlen then none
    else
      let fields : StartFields :=
        { final_frame := decide final_frame, frame_opcode := frame_opcode,
          frame_opcode_is_control := decide frame_opcode_is_control,
          frame_compressed := frame_compressed,
          masked_frame := decide masked_frame }
      if payloadlen < 126 then
        if masked_frame then some (fields, StartAction.readMaskingKey payloadlen)
        else some (fields, StartAction.readFrameData payloadlen)
      else if payloadlen = 126 then
        some (fields, StartAction.readLength16 (decide masked_frame))
      else some (fields, StartAction.readLength64 (decide masked_frame))

/-- One incoming frame, already split into decoded header fields and
payload.  The payload is assumed canonically length-encoded, so the 7-bit
length field tested by `_on_frame_start` is `< 126` exactly when the payload
is at most 125 bytes long. -/
structure Frame where
  fin : Bool
  rsv1 : Bool
  rsv2 : Bool
  rsv3 : Bool
  opcode : Nat
  payload : List Nat
  deriving DecidableEq, Repr

/-- Processing of one frame: the header checks of `_on_frame_start`
(websocket.py lines 688-721) followed by `_on_frame_data`.  In order:
absorb RSV1 into the compressed flag when a decompressor is negotiated and
the opcode is nonzero; abort on any remaining reserved bit; abort on a
control frame whose 7-bit length field is not below 126; then hand the
payload to `on_frame_data`. -/
def processFrame (cfg : Config) (st : WSState) (f : Frame) : WSState :=
  let frame_opcode_is_control := f.opcode &&& 0x8 ≠ 0
  let st :=
    if cfg.decompressor.isSome && f.opcode ≠ 0 then
      { st with frame_compressed := f.rsv1 }
    else st
  let reserved_violation :=
    if cfg.decompressor.isSome && f.opcode ≠ 0 then f.rsv2 || f.rsv3
    else f.rsv1 || f.rsv2 || f.rsv3
  if reserved_violation then ws_abort st
  else if frame_opcode_is_control ∧ 126 ≤ f.payload.length then ws_abort st
  else on_frame_data cfg f.fin f.opcode (decide frame_opcode_is_control)
    f.payload st

/-- The read loop: `_receive_frame` is re-armed after each frame only while
the client has not terminated (websocket.py lines 793-794). -/
def processFrames (cfg : Config) : WSState → List Frame → WSState
  | st, [] => st
  | st, f :: fs =>
      let st1 := processFrame cfg st f
      if st1.client_terminated then st1 else processFrames cfg st1 fs

/-! ## Handler-level guards (`WebSocketHandler.write_message` / `ping`) -/

/-- The exception type of interest at the handler layer. -/
inductive WsExn where
  | closedError
  deriving DecidableEq, Repr

/-- What `self.ws_connection` refers to, for the purpose of the outgoing
path: the connection's masking side, optional compressor, and the random
mask bytes the next write would use. -/
structure WriterConn where
  mask_outgoing : Bool
  compressor : Option (List Nat → List Nat)
  mask : List Nat

/-- `WebSocketHandler.write_message` (websocket.py lines 189-209): raise
`WebSocketClosedError` when `ws_connection` is `None`, otherwise delegate
to the protocol's `write_message`.  The `ok` payload is the byte string
written to the stream; an `error` result writes nothing. -/
def handler_write_message (ws_connection : Option WriterConn)
    (message : List Nat) (binary : Bool) : Except WsExn (List Nat) :=
  match ws_connection with
  | none => Except.error WsExn.closedError
  | some conn =>
      Except.ok (write_message conn.mask_outgoing conn.compressor conn.mask
        message binary)

/-- `WebSocketHandler.ping` (websocket.py lines 251-256): raise
`WebSocketClosedError` when `ws_connection` is `None`, otherwise send a
ping frame. -/
def handler_ping (ws_connection : Option WriterConn) (data : List Nat) :
    Except WsExn (List Nat) :=
  match ws_connection with
  | none => Except.error WsExn.closedError
  | some conn => Except.ok (write_ping conn.mask_outgoing conn.mask data)

/-! ## Shared lemmas about the abort path -/

/-- `_abort` leaves both terminated flags set and the stream closed, and
clears any pending timeout; it touches neither the fragmentation state nor
the recorded events. -/
theorem ws_abort_spec (st : WSState) :
    (ws_abort st).client_terminated = true ∧
    (ws_abort st).server_terminated = true ∧
    (ws_abort st).stream_closed = true ∧
    (ws_abort st).waiting = none ∧
    (ws_abort st).fragmented_message_buffer = st.fragmented_message_buffer ∧
    (ws_abort st).fragmented_message_opcode = st.fragmented_message_opcode ∧
    (ws_abort st).frame_compressed = st.frame_compressed ∧
    (ws_abort st).events = st.events := by
  simp [ws_abort, close]

/-- Replacing a field of a `WSState` by its current value is the identity. -/
theorem wsstate_set_compressed_self (st : WSState) (b : Bool)
    (h : st.frame_compressed = b) : { st with frame_compressed := b } = st := by
  cases st
  simp_all

/-- Replacing the buffer field by its current value is the identity. -/
theorem wsstate_set_buffer_self (st : WSState) (b : Option (List Nat))
    (h : st.fragmented_message_buffer = b) :
    { st with fragmented_message_buffer := b } = st := by
  cases st
  simp_all

/-! ## C1 -/

set_option maxRecDepth 8000

/-- C1: for every `Sec-WebSocket-Key` value, the handshake computes
`Sec-WebSocket-Accept` as the base64 encoding of the SHA-1 digest of the
key concatenated with the fixed GUID, and on the RFC 6455 test key
`dGhlIHNhbXBsZSBub25jZQ==` the computed value is
`s3pPLMBiTxaQ9kYGzzhZRbK+xOo=`. -/
theorem c1_accept_value :
    (∀ key : String,
      compute_accept_value key = b64encode (sha1 (utf8Encode key ++ wsMagicGUID))) ∧
    compute_accept_value "dGhlIHNhbXBsZSBub25jZQ==" =
      utf8Encode "s3pPLMBiTxaQ9kYGzzhZRbK+xOo=" :=
  ⟨fun _ => rfl, by decide⟩

/-! ## C7 -/

/-- C7: for every payload, compressing with the per-message DEFLATE
compressor and decompressing with a matching decompressor restores the
payload; the compressor strips the 4-byte `\x00\x00\xff\xff` trailer from
the raw sync-flushed output and the decompressor appends that trailer
before inflating.  The raw zlib streams are external to this repository and
enter as the codec `z`; the two hypotheses record exactly the zlib facts
the code relies on (the `assert` on line 438, and raw inflate inverting raw
deflate). -/
theorem c7_deflate_roundtrip (z : ZlibCodec) (p pre : List Nat)
    (hTrail : z.rawCompress p = pre ++ deflateTrailer)
    (hInv : z.rawDecompress (z.rawCompress p) = p) :
    pmdDecompress z (pmdCompress z p) = p ∧
    pmdCompress z p = pre ∧
    (∀ d, pmdDecompress z d = z.rawDecompress (d ++ deflateTrailer)) := by
  have hc : pmdCompress z p = pre := by
    simp [pmdCompress, hTrail, deflateTrailer]
  refine ⟨?_, hc, fun d => rfl⟩
  rw [pmdDecompress, hc, show pre ++ deflateTrailer = z.rawCompress p from
    hTrail.symm, hInv]

/-- A concrete codec whose raw compressor is "store plus trailer". -/
def storedCodec : ZlibCodec :=
  ⟨fun p => p ++ deflateTrailer, fun d => d.take (d.length - 4)⟩

/-- Witness for C7 at the codec `storedCodec` and payload `[1, 2, 3]`. -/
theorem c7_witness :
    pmdDecompress storedCodec (pmdCompress storedCodec [1, 2, 3]) = [1, 2, 3] :=
  (c7_deflate_roundtrip storedCodec [1, 2, 3] [1, 2, 3] rfl (by decide)).1

/-! ## C8 -/

/-- C8: a handler callback dispatched through `_run_callback` that raises
is caught at the dispatch boundary (the return type of `run_callback` is a
plain state, so no exception escapes), the error is logged, and the
connection is aborted: both terminated flags are set and the stream is
closed.  A callback that returns normally passes its state through
unchanged. -/
theorem c8_run_callback_boundary (callback : WSState → CallbackOutcome)
    (st st1 : WSState) :
    (callback st = CallbackOutcome.ok st1 → run_callback callback st = st1) ∧
    (callback st = CallbackOutcome.exn st1 →
      (run_callback callback st).client_terminated = true ∧
      (run_callback callback st).server_terminated = true ∧
      (run_callback callback st).stream_closed = true ∧
      (run_callback callback st).events = st1.events ++ [Event.errorLogged]) := by
  constructor
  · intro h
    simp [run_callback, h]
  · intro h
    simp [run_callback, h, ws_abort, close]

/-- Witness for C8: a callback that raises from the initial state. -/
theorem c8_witness :
    (run_callback (fun st => CallbackOutcome.exn st) initState).client_terminated
        = true ∧
    (run_callback (fun st => CallbackOutcome.exn st) initState).stream_closed
        = true :=
  ⟨((c8_run_callback_boundary (fun st => CallbackOutcome.exn st) initState
      initState).2 rfl).1,
   ((c8_run_callback_boundary (fun st => CallbackOutcome.exn st) initState
      initState).2 rfl).2.2.1⟩

/-! ## C10 -/

/-- C10: once the handler's `ws_connection` field is `None` (after `close()`
or a connection-close notification), `write_message` and `ping` raise
`WebSocketClosedError`; the error return carries no bytes, so nothing is
written to the stream. -/
theorem c10_closed_raises :
    (∀ message binary, handler_write_message none message binary =
      Except.error WsExn.closedError) ∧
    (∀ data, handler_ping none data = Except.error WsExn.closedError) :=
  ⟨fun _ _ => rfl, fun _ => rfl⟩

/-! ## Lemmas about frame processing, shared across claims -/
theorem processFrame_continuation (cfg : Config) (st : WSState)
    (d buf : List Nat) (hbuf : st.fragmented_message_buffer = some buf) :
    processFrame cfg st (Frame.mk false false false false 0 d) =
      { st with fragmented_message_buffer := some (buf ++ d) } := by
  simp [processFrame, on_frame_data, hbuf]

theorem processFrame_final_continuation (cfg : Config) (st : WSState)
    (last buf : List Nat)
    (hbuf : st.fragmented_message_buffer = some buf) :
    processFrame cfg st (Frame.mk true false false false 0 last) =
      handle_message cfg (st.fragmented_message_opcode.getD 0) (buf ++ last)
        { st with fragmented_message_buffer := none } := by
  simp [processFrame, on_frame_data, hbuf]

theorem processFrame_fragment_start (cfg : Config) (st : WSState) (op : Nat)
    (first : List Nat) (r : Bool)
    (hbuf : st.fragmented_message_buffer = none)
    (hnc : op &&& 0x8 = 0) (hnz : op ≠ 0)
    (habs : cfg.decompressor.isSome = true ∨ r = false) :
    processFrame cfg st (Frame.mk false r false false op first) =
      { st with
          frame_compressed :=
            if cfg.decompressor.isSome then r else st.frame_compressed,
          fragmented_message_opcode := some op,
          fragmented_message_buffer := some first } := by
  rcases hd : cfg.decompressor with _ | dec
  · rcases habs with h | h
    · rw [hd] at h
      simp at h
    · subst h
      simp [processFrame, on_frame_data, hd, hnc, hnz, hbuf]
  · simp [processFrame, on_frame_data, hd, hnc, hnz, hbuf]

theorem handle_message_data_spec (cfg : Config) (st : WSState) (op : Nat)
    (data : List Nat) (hct : st.client_terminated = false)
    (hv : op = 0x1 ∧ utf8Valid
        (if st.frame_compressed then (cfg.decompressor.getD id) data else data)
          = true ∨ op = 0x2) :
    handle_message cfg op data st =
      { st with events := st.events ++ [Event.message op
          (if st.frame_compressed then (cfg.decompressor.getD id) data
           else data)] } := by
  rcases hv with ⟨h1, hval⟩ | h2
  · subst h1
    simp [handle_message, hct, hval]
  · subst h2
    simp [handle_message, hct]

theorem processFrames_continuation_run (cfg : Config) (mids : List (List Nat)) :
    ∀ (st : WSState) (buf : List Nat), st.client_terminated = false →
      st.fragmented_message_buffer = some buf → ∀ rest,
      processFrames cfg st
          (mids.map (fun d => Frame.mk false false false false 0 d) ++ rest) =
        processFrames cfg
          { st with fragmented_message_buffer := some (buf ++ mids.flatten) }
          rest := by
  induction mids with
  | nil =>
    intro st buf hct hbuf rest
    simp only [List.map_nil, List.nil_append, List.flatten_nil,
      List.append_nil]
    rw [wsstate_set_buffer_self st _ hbuf]
  | cons d ds ih =>
    intro st buf hct hbuf rest
    simp only [List.map_cons, List.cons_append, processFrames]
    rw [processFrame_continuation cfg st d buf hbuf]
    rw [if_neg (by simp [hct])]
    refine (ih { st with fragmented_message_buffer := some (buf ++ d) }
      (buf ++ d) hct rfl rest).trans ?_
    simp [List.append_assoc]

theorem processFrame_data_during_frag_aborts (cfg : Config) (st : WSState)
    (f : Frame) (hbuf : st.fragmented_message_buffer.isSome = true)
    (hnc : f.opcode &&& 0x8 = 0) (hnz : f.opcode ≠ 0) :
    (processFrame cfg st f).client_terminated = true ∧
    (processFrame cfg st f).server_terminated = true ∧
    (processFrame cfg st f).stream_closed = true := by
  simp only [processFrame, on_frame_data, hnc, hnz]
  split_ifs <;> simp_all [ws_abort, close]

theorem processFrame_orphan_continuation_aborts (cfg : Config) (st : WSState)
    (f : Frame) (hbuf : st.fragmented_message_buffer = none)
    (hz : f.opcode = 0) :
    (processFrame cfg st f).client_terminated = true ∧
    (processFrame cfg st f).server_terminated = true ∧
    (processFrame cfg st f).stream_closed = true := by
  simp only [processFrame, on_frame_data, hz, hbuf]
  split_ifs <;> simp_all [ws_abort, close]

theorem close_preserves_frag (code : Option Nat) (reason : Option (List Nat))
    (st : WSState) :
    (close code reason st).fragmented_message_buffer =
      st.fragmented_message_buffer ∧
    (close code reason st).fragmented_message_opcode =
      st.fragmented_message_opcode ∧
    (close code reason st).frame_compressed = st.frame_compressed ∧
    (close code reason st).client_terminated = st.client_terminated := by
  simp only [close]
  split_ifs <;> exact ⟨rfl, rfl, rfl, rfl⟩

theorem ws_abort_preserves_frag (st : WSState) :
    (ws_abort st).fragmented_message_buffer = st.fragmented_message_buffer ∧
    (ws_abort st).fragmented_message_opcode = st.fragmented_message_opcode ∧
    (ws_abort st).frame_compressed = st.frame_compressed := by
  rw [ws_abort]
  exact ⟨(close_preserves_frag _ _ _).1, (close_preserves_frag _ _ _).2.1,
    (close_preserves_frag _ _ _).2.2.1⟩

theorem handle_message_preserves_frag (cfg : Config) (op : Nat)
    (data : List Nat) (st : WSState) :
    (handle_message cfg op data st).fragmented_message_buffer =
      st.fragmented_message_buffer ∧
    (handle_message cfg op data st).fragmented_message_opcode =
      st.fragmented_message_opcode ∧
    (handle_message cfg op data st).frame_compressed = st.frame_compressed := by
  simp only [handle_message]
  split_ifs <;>
    first
      | exact ⟨rfl, rfl, rfl⟩
      | exact ⟨(ws_abort_preserves_frag _).1, (ws_abort_preserves_frag _).2.1,
          (ws_abort_preserves_frag _).2.2⟩
      | exact ⟨(close_preserves_frag _ _ _).1, (close_preserves_frag _ _ _).2.1,
          (close_preserves_frag _ _ _).2.2.1⟩

theorem processFrame_control_preserves_frag (cfg : Config) (st : WSState)
    (f : Frame) (hc : f.opcode &&& 0x8 ≠ 0) :
    (processFrame cfg st f).fragmented_message_buffer =
      st.fragmented_message_buffer ∧
    (processFrame cfg st f).fragmented_message_opcode =
      st.fragmented_message_opcode := by
  simp only [processFrame, on_frame_data, hc]
  split_ifs <;>
    first
      | exact ⟨(ws_abort_preserves_frag _).1, (ws_abort_preserves_frag _).2.1⟩
      | exact ⟨(handle_message_preserves_frag _ _ _ _).1,
          (handle_message_preserves_frag _ _ _ _).2.1⟩
      | simp_all

/-- C2: a non-control frame with fin=0 starts a reassembly buffer recording
its opcode; each continuation frame (opcode 0) appends its payload; the
fin=1 frame completes a single logical message carrying the first
fragment's opcode and the concatenation of all fragment payloads, delivered
in one `on_message` event; a non-continuation data frame while the buffer
is non-empty aborts, a continuation frame with no buffer aborts, and a
control frame never modifies the reassembly buffer or its recorded
opcode. -/
theorem c2_fragmentation_reassembly (cfg : Config) :
    (∀ (st : WSState) (op : Nat) (first last : List Nat)
        (mids : List (List Nat)),
      st.client_terminated = false →
      st.fragmented_message_buffer = none →
      st.frame_compressed = false →
      op &&& 0x8 = 0 → op ≠ 0 →
      (op = 0x1 ∧ utf8Valid (first ++ (mids.flatten ++ last)) = true ∨
        op = 0x2) →
      (processFrames cfg st
          (Frame.mk false false false false op first ::
            (mids.map (fun d => Frame.mk false false false false 0 d) ++
              [Frame.mk true false false false 0 last]))).events =
        st.events ++ [Event.message op (first ++ (mids.flatten ++ last))] ∧
      (processFrames cfg st
          (Frame.mk false false false false op first ::
            (mids.map (fun d => Frame.mk false false false false 0 d) ++
              [Frame.mk true false false false 0 last]))).client_terminated =
        false ∧
      (processFrames cfg st
          (Frame.mk false false false false op first ::
            (mids.map (fun d => Frame.mk false false false false 0 d) ++
              [Frame.mk true false false false 0 last]))).fragmented_message_buffer =
        none) ∧
    (∀ (st : WSState) (f : Frame),
      st.fragmented_message_buffer.isSome = true →
      f.opcode &&& 0x8 = 0 → f.opcode ≠ 0 →
      (processFrame cfg st f).client_terminated = true ∧
      (processFrame cfg st f).server_terminated = true ∧
      (processFrame cfg st f).stream_closed = true) ∧
    (∀ (st : WSState) (f : Frame),
      st.fragmented_message_buffer = none → f.opcode = 0 →
      (processFrame cfg st f).client_terminated = true ∧
      (processFrame cfg st f).server_terminated = true ∧
      (processFrame cfg st f).stream_closed = true) ∧
    (∀ (st : WSState) (f : Frame), f.opcode &&& 0x8 ≠ 0 →
      (processFrame cfg st f).fragmented_message_buffer =
        st.fragmented_message_buffer ∧
      (processFrame cfg st f).fragmented_message_opcode =
        st.fragmented_message_opcode) := by
  refine ⟨?_, processFrame_data_during_frag_aborts cfg,
    processFrame_orphan_continuation_aborts cfg,
    processFrame_control_preserves_frag cfg⟩
  intro st op first last mids hct hbuf hfc hnc hnz hv
  have hflag : (if cfg.decompressor.isSome then false
      else st.frame_compressed) = false := by
    rcases cfg.decompressor <;> simp [hfc]
  have hwhole : processFrames cfg st
      (Frame.mk false false false false op first ::
        (mids.map (fun d => Frame.mk false false false false 0 d) ++
          [Frame.mk true false false false 0 last])) =
      { st with
          frame_compressed := false,
          fragmented_message_opcode := some op,
          fragmented_message_buffer := none,
          events := st.events ++
            [Event.message op (first ++ (mids.flatten ++ last))] } := by
    simp only [processFrames]
    rw [processFrame_fragment_start cfg st op first false hbuf hnc hnz
      (Or.inr rfl)]
    rw [hflag]
    rw [if_neg (by simp [hct])]
    refine (processFrames_continuation_run cfg mids
      { st with
          frame_compressed := false,
          fragmented_message_opcode := some op,
          fragmented_message_buffer := some first }
      first hct rfl _).trans ?_
    simp only [processFrames]
    rw [processFrame_final_continuation cfg _ last (first ++ mids.flatten) rfl]
    rw [ite_self]
    refine (handle_message_data_spec cfg
      { st with
          frame_compressed := false,
          fragmented_message_opcode := some op,
          fragmented_message_buffer := none }
      op (first ++ mids.flatten ++ last) hct ?_).trans ?_
    · simpa [List.append_assoc] using hv
    · simp [List.append_assoc]
  refine ⟨?_, ?_, ?_⟩ <;> simp [hwhole, hct]

/-- Witness for C2: the spec's scenario, the text message `Hello, World!`
split into fragments `Hello, ` / `World` / `!`, reassembled into a single
`on_message` delivery. -/
theorem c2_witness :
    (processFrames (Config.mk none) initState
        (Frame.mk false false false false 0x1 [72, 101, 108, 108, 111, 44, 32] ::
          ([[87, 111, 114, 108, 100]].map
              (fun d => Frame.mk false false false false 0 d) ++
            [Frame.mk true false false false 0 [33]]))).events =
      [Event.message 0x1
        [72, 101, 108, 108, 111, 44, 32, 87, 111, 114, 108, 100, 33]] := by
  have h := (c2_fragmentation_reassembly (Config.mk none)).1 initState 0x1
    [72, 101, 108, 108, 111, 44, 32] [33] [[87, 111, 114, 108, 100]]
    rfl rfl rfl (by decide) (by decide) (Or.inl ⟨rfl, by decide⟩)
  rw [h.1]
  decide

/-- A final control frame with clear reserved bits (after RSV1 absorption
when a decompressor is negotiated) and a payload of at most 125 bytes
passes the header checks of `_on_frame_start` and is dispatched to
`_handle_message`. -/
theorem processFrame_control_final (cfg : Config) (st : WSState) (f : Frame)
    (hc : f.opcode &&& 0x8 ≠ 0) (hfin : f.fin = true)
    (hlen : f.payload.length ≤ 125)
    (hrsv : (if cfg.decompressor.isSome then f.rsv2 || f.rsv3
             else f.rsv1 || f.rsv2 || f.rsv3) = false) :
    processFrame cfg st f =
      handle_message cfg f.opcode f.payload
        (if cfg.decompressor.isSome then { st with frame_compressed := f.rsv1 }
         else st) := by
  have hop : f.opcode ≠ 0 := by
    intro h
    rw [h] at hc
    exact hc rfl
  have hlen2 : ¬ (126 ≤ f.payload.length) := by omega
  rcases hd : cfg.decompressor with _ | d <;>
    rw [hd] at hrsv <;> simp only [Option.isSome_none, Option.isSome_some,
      Bool.false_eq_true, if_false, if_true, Bool.or_eq_false_iff] at hrsv ⊢ <;>
    simp only [processFrame, on_frame_data, hd, Option.isSome_none,
      Option.isSome_some, Bool.false_and, Bool.true_and, hop, hfin, hc,
      ne_eq, not_false_eq_true, Bool.not_true, hrsv.1, hrsv.2,
      Bool.or_false, if_false, if_true, hlen2, and_false, Bool.false_eq_true,
      decide_eq_true_eq]

/-- Once the peer has terminated, `close` with a status code that fits in
16 bits (so `struct.pack` cannot raise) cancels any pending timeout and
closes the socket. -/
theorem close_peer_terminated (code : Option Nat) (reason : Option (List Nat))
    (st : WSState) (h : st.client_terminated = true)
    (hcode : code.getD 0 < 0x10000) :
    (close code reason st).waiting = none ∧
    (close code reason st).stream_closed = true ∧
    (close code reason st).client_terminated = true ∧
    (close code reason st).server_terminated = true := by
  have hnr : ¬ (st.server_terminated = false ∧ st.stream_closed = false ∧
      0x10000 ≤ (if code.isNone && reason.isSome then some 1000
                 else code).getD 0) := by
    rintro ⟨-, -, hbig⟩
    rcases code with _ | c <;> rcases reason with _ | rs <;>
      simp_all <;> omega
  simp only [close]
  rw [if_neg hnr]
  split_ifs <;> simp_all

/-- Reduction of `_handle_message` on a close frame whose reason bytes (if
any) decode as UTF-8: the mutations of websocket.py lines 818-822 followed
by the echoing `close` call of line 824. -/
theorem handle_message_close_eq (cfg : Config) (st : WSState)
    (data : List Nat) (hct : st.client_terminated = false)
    (hfc : st.frame_compressed = false)
    (hvalid : utf8Valid (data.drop 2) = true) :
    handle_message cfg 0x8 data st =
      close (if 2 ≤ data.length then some (data.getD 0 0 * 256 + data.getD 1 0)
             else st.close_code) none
        { st with
            client_terminated := true,
            close_code := (if 2 ≤ data.length then
              some (data.getD 0 0 * 256 + data.getD 1 0) else st.close_code),
            close_reason := (if 2 < data.length then some (data.drop 2)
              else st.close_reason) } := by
  by_cases h2 : 2 ≤ data.length <;> by_cases h3 : 2 < data.length <;>
    simp only [handle_message, hct, hfc, Bool.false_eq_true, if_false,
      if_true, h2, h3, hvalid, if_pos, if_neg, not_true, not_false_eq_true,
      OfNat.ofNat_ne_one, reduceIte] <;>
    rfl

/-- Full effect of `_handle_message` on a close frame (opcode 0x8) with
byte-valued payload and UTF-8-decodable reason, received on an open
connection. -/
theorem handle_message_close_spec (cfg : Config) (st : WSState)
    (data : List Nat) (hb : ∀ b ∈ data, b < 256)
    (hvalid : utf8Valid (data.drop 2) = true)
    (hct : st.client_terminated = false)
    (hst : st.server_terminated = false) (hsc : st.stream_closed = false)
    (hfc : st.frame_compressed = false) (hcc : st.close_code = none) :
    (handle_message cfg 0x8 data st).client_terminated = true ∧
    (handle_message cfg 0x8 data st).server_terminated = true ∧
    (handle_message cfg 0x8 data st).stream_closed = true ∧
    (handle_message cfg 0x8 data st).close_code =
      (if 2 ≤ data.length then some (data.getD 0 0 * 256 + data.getD 1 0)
       else none) ∧
    (handle_message cfg 0x8 data st).close_reason =
      (if 2 < data.length then some (data.drop 2) else st.close_reason) ∧
    (handle_message cfg 0x8 data st).events =
      st.events ++ [Event.frameSent true 0x8
        (if 2 ≤ data.length then pack16be (data.getD 0 0 * 256 + data.getD 1 0)
         else [])] ∧
    (handle_message cfg 0x8 data st).waiting = none := by
  have h0 : data.getD 0 0 < 256 := by
    rcases data with _ | ⟨b0, rest⟩
    · norm_num [List.getD]
    · exact hb b0 (by simp)
  have h1 : data.getD 1 0 < 256 := by
    rcases data with _ | ⟨b0, _ | ⟨b1, rest⟩⟩
    · norm_num [List.getD]
    · norm_num [List.getD]
    · exact hb b1 (by simp)
  have hv : data.getD 0 0 * 256 + data.getD 1 0 < 0x10000 := by omega
  rw [handle_message_close_eq cfg st data hct hfc hvalid]
  by_cases h2 : 2 ≤ data.length
  · simp [close, hst, hsc, h2, hcc, Nat.not_le.mpr hv,
      -List.getD_eq_getElem?_getD]
  · have h3 : ¬ 2 < data.length := by omega
    simp [close, hst, hsc, h2, h3, hcc]

/-- C3 (amended): receiving a close frame (opcode 0x8) on an open
connection marks the peer as terminated, sets `close_code` from the first
two payload bytes read big-endian when the payload has at least two bytes
(leaving it `None` otherwise) and — provided the remaining bytes decode as
UTF-8 — sets `close_reason` from the remaining bytes when the payload is
longer than two, echoes a close frame carrying the same status code (an
empty close payload when there was none), and closes the underlying
socket.  When the trailing bytes do not decode, `to_unicode` raises an
uncaught `UnicodeDecodeError` and neither the echo nor the socket close
happens (see `c3_counterexample`). -/
theorem c3_close_frame (cfg : Config) (st : WSState) (payload : List Nat)
    (hlen : payload.length ≤ 125) (hb : ∀ b ∈ payload, b < 256)
    (hvalid : utf8Valid (payload.drop 2) = true)
    (hct : st.client_terminated = false)
    (hst : st.server_terminated = false) (hsc : st.stream_closed = false)
    (hfc : st.frame_compressed = false) (hcc : st.close_code = none)
    (hcr : st.close_reason = none) :
    (processFrame cfg st (Frame.mk true false false false 0x8 payload)).client_terminated = true ∧
    (processFrame cfg st (Frame.mk true false false false 0x8 payload)).server_terminated = true ∧
    (processFrame cfg st (Frame.mk true false false false 0x8 payload)).stream_closed = true ∧
    (processFrame cfg st (Frame.mk true false false false 0x8 payload)).close_code =
      (if 2 ≤ payload.length then
        some (payload.getD 0 0 * 256 + payload.getD 1 0) else none) ∧
    (processFrame cfg st (Frame.mk true false false false 0x8 payload)).close_reason =
      (if 2 < payload.length then some (payload.drop 2) else none) ∧
    (processFrame cfg st (Frame.mk true false false false 0x8 payload)).events =
      st.events ++ [Event.frameSent true 0x8
        (if 2 ≤ payload.length then
          pack16be (payload.getD 0 0 * 256 + payload.getD 1 0) else [])] ∧
    (processFrame cfg st (Frame.mk true false false false 0x8 payload)).waiting = none := by
  have hdisp := processFrame_control_final cfg st
    (Frame.mk true false false false 0x8 payload) (by simp) rfl hlen
    (by rcases cfg.decompressor <;> simp)
  rw [hdisp]
  rcases hd : cfg.decompressor with _ | dec <;>
    simp only [hd, Option.isSome_none, Option.isSome_some,
      Bool.false_eq_true, if_false, if_true]
  · have h := handle_message_close_spec cfg st payload hb hvalid hct hst hsc
      hfc hcc
    exact ⟨h.1, h.2.1, h.2.2.1, h.2.2.2.1,
      h.2.2.2.2.1.trans (by rw [hcr]), h.2.2.2.2.2.1, h.2.2.2.2.2.2⟩
  · have h := handle_message_close_spec cfg
      { st with frame_compressed := false } payload hb hvalid hct hst hsc
      rfl hcc
    exact ⟨h.1, h.2.1, h.2.2.1, h.2.2.2.1,
      h.2.2.2.2.1.trans (by rw [hcr]), h.2.2.2.2.2.1, h.2.2.2.2.2.2⟩

/-- C3 counterexample: the close frame `[3, 232, 0xFF]` carries status code
1000 followed by the reason byte `0xFF`, which is not valid UTF-8.
`to_unicode(data[2:])` (websocket.py line 822, escape.py line 215) raises
an uncaught `UnicodeDecodeError` after the peer flag and the status code
have been recorded: `close_reason` is never set, no close frame is echoed
and the socket is not closed, contrary to the claim. -/
theorem c3_counterexample :
    (processFrame (Config.mk none) initState
      (Frame.mk true false false false 0x8 [3, 232, 255])).raised = true ∧
    (processFrame (Config.mk none) initState
      (Frame.mk true false false false 0x8 [3, 232, 255])).client_terminated
        = true ∧
    (processFrame (Config.mk none) initState
      (Frame.mk true false false false 0x8 [3, 232, 255])).close_code
        = some 1000 ∧
    (processFrame (Config.mk none) initState
      (Frame.mk true false false false 0x8 [3, 232, 255])).close_reason
        = none ∧
    (processFrame (Config.mk none) initState
      (Frame.mk true false false false 0x8 [3, 232, 255])).events = [] ∧
    (processFrame (Config.mk none) initState
      (Frame.mk true false false false 0x8 [3, 232, 255])).stream_closed
        = false := by
  decide

/-- A received close frame with byte-valued payload and UTF-8-decodable
reason completes the handshake: afterwards no timeout is pending, the
socket is closed and the peer is marked terminated, whatever the earlier
handshake state — provided any stored status code fits in 16 bits, so the
echoing `close` cannot raise. -/
theorem handle_message_close_terminates (cfg : Config) (st : WSState)
    (data : List Nat) (hct : st.client_terminated = false)
    (hfc : st.frame_compressed = false)
    (hcc : st.close_code.getD 0 < 0x10000)
    (hb : ∀ b ∈ data, b < 256)
    (hvalid : utf8Valid (data.drop 2) = true) :
    (handle_message cfg 0x8 data st).waiting = none ∧
    (handle_message cfg 0x8 data st).stream_closed = true ∧
    (handle_message cfg 0x8 data st).client_terminated = true := by
  have h0 : data.getD 0 0 < 256 := by
    rcases data with _ | ⟨b0, rest⟩
    · norm_num [List.getD]
    · exact hb b0 (by simp)
  have h1 : data.getD 1 0 < 256 := by
    rcases data with _ | ⟨b0, _ | ⟨b1, rest⟩⟩
    · norm_num [List.getD]
    · norm_num [List.getD]
    · exact hb b1 (by simp)
  have hv : (if 2 ≤ data.length then
      some (data.getD 0 0 * 256 + data.getD 1 0) else st.close_code).getD 0
      < 0x10000 := by
    split_ifs
    · simp only [Option.getD_some]
      omega
    · exact hcc
  rw [handle_message_close_eq cfg st data hct hfc hvalid]
  exact ⟨(close_peer_terminated _ _ _ rfl hv).1,
    (close_peer_terminated _ _ _ rfl hv).2.1,
    (close_peer_terminated _ _ _ rfl hv).2.2.1⟩

/-- C9 (amended): initiating the close handshake while the peer is still
active, with a status code that fits in 16 bits, sends the close frame and
schedules a single `_abort` timeout five seconds in the future
(`io_loop.time() + 5`); when the peer's close frame — with byte-valued
payload whose reason bytes, if any, decode as UTF-8 — or the socket-close
notification arrives, the pending timeout is removed and the socket is
closed immediately, so the timer is no longer pending once the handshake
completes.  An oversized status code makes `struct.pack` raise instead of
sending, and an undecodable peer reason leaves the timeout pending (see
`c9_counterexample`). -/
theorem c9_close_grace_period (cfg : Config) (st : WSState) (code : Nat)
    (reason : Option (List Nat)) (payload : List Nat)
    (hcode : code < 0x10000)
    (hct : st.client_terminated = false) (hst : st.server_terminated = false)
    (hsc : st.stream_closed = false) (hw : st.waiting = none)
    (hfc : st.frame_compressed = false) (hcc : st.close_code = none)
    (hlen : payload.length ≤ 125) (hb : ∀ b ∈ payload, b < 256)
    (hvalid : utf8Valid (payload.drop 2) = true) :
    ((close (some code) reason st).waiting = some (st.now + 5) ∧
     (close (some code) reason st).server_terminated = true ∧
     (close (some code) reason st).client_terminated = false ∧
     (close (some code) reason st).stream_closed = false ∧
     (close (some code) reason st).events =
       st.events ++
         [Event.frameSent true 0x8 (pack16be code ++ reason.getD [])]) ∧
    ((processFrame cfg (close (some code) reason st)
        (Frame.mk true false false false 0x8 payload)).waiting = none ∧
     (processFrame cfg (close (some code) reason st)
        (Frame.mk true false false false 0x8 payload)).stream_closed = true) ∧
    ((on_connection_close (close (some code) reason st)).waiting = none ∧
     (on_connection_close (close (some code) reason st)).stream_closed =
       true) := by
  have hclose : close (some code) reason st =
      { st with
          server_terminated := true,
          waiting := some (st.now + 5),
          events := st.events ++
            [Event.frameSent true 0x8 (pack16be code ++ reason.getD [])] } := by
    simp [close, hct, hst, hsc, hw, Nat.not_le.mpr hcode]
  have hc2 : (close (some code) reason st).client_terminated = false := by
    rw [hclose]
    exact hct
  have hfc2 : (close (some code) reason st).frame_compressed = false := by
    rw [hclose]
    exact hfc
  have hcc2 : (close (some code) reason st).close_code.getD 0 < 0x10000 := by
    rw [hclose]
    show st.close_code.getD 0 < 0x10000
    rw [hcc]
    norm_num
  refine ⟨by rw [hclose]; exact ⟨rfl, rfl, hct, hsc, rfl⟩, ?_, ?_⟩
  · rw [processFrame_control_final cfg (close (some code) reason st)
      (Frame.mk true false false false 0x8 payload) (by simp) rfl hlen
      (by rcases cfg.decompressor <;> simp)]
    rcases hd : cfg.decompressor with _ | dec <;>
      simp only [hd, Option.isSome_none, Option.isSome_some,
        Bool.false_eq_true, if_false, if_true]
    · exact ⟨(handle_message_close_terminates cfg (close (some code) reason st)
          payload hc2 hfc2 hcc2 hb hvalid).1,
        (handle_message_close_terminates cfg (close (some code) reason st)
          payload hc2 hfc2 hcc2 hb hvalid).2.1⟩
    · exact ⟨(handle_message_close_terminates cfg
          { close (some code) reason st with frame_compressed := false }
          payload hc2 rfl hcc2 hb hvalid).1,
        (handle_message_close_terminates cfg
          { close (some code) reason st with frame_compressed := false }
          payload hc2 rfl hcc2 hb hvalid).2.1⟩
  · rw [on_connection_close]
    exact ⟨(ws_abort_spec _).2.2.2.1, (ws_abort_spec _).2.2.1⟩

/-- C9 counterexample: after a local `close(1000)` schedules the 5-second
`_abort` timeout, the peer's close frame `[3, 232, 0xFF]` carries an
undecodable reason, so `to_unicode` (websocket.py line 822) raises before
the echoing `close()` of line 824 runs: the pending timeout is NOT removed
and the socket stays open, contrary to the claim.  Moreover a local
`close(70000)` sends no close frame and schedules nothing at all:
`struct.pack('>H', 70000)` (line 843) raises `struct.error`. -/
theorem c9_counterexample :
    (processFrame (Config.mk none) (close (some 1000) none initState)
      (Frame.mk true false false false 0x8 [3, 232, 255])).waiting
        = some 5 ∧
    (processFrame (Config.mk none) (close (some 1000) none initState)
      (Frame.mk true false false false 0x8 [3, 232, 255])).stream_closed
        = false ∧
    (processFrame (Config.mk none) (close (some 1000) none initState)
      (Frame.mk true false false false 0x8 [3, 232, 255])).raised = true ∧
    (close (some 70000) none initState).raised = true ∧
    (close (some 70000) none initState).server_terminated = false ∧
    (close (some 70000) none initState).waiting = none ∧
    (close (some 70000) none initState).events = [] := by
  decide

/-- Witness for C3: a close frame with status code 1000 and reason `bye`. -/
theorem c3_witness :
    (processFrame (Config.mk none) initState
      (Frame.mk true false false false 0x8 [3, 232, 98, 121, 101])).close_code =
        some 1000 ∧
    (processFrame (Config.mk none) initState
      (Frame.mk true false false false 0x8 [3, 232, 98, 121, 101])).close_reason =
        some [98, 121, 101] ∧
    (processFrame (Config.mk none) initState
      (Frame.mk true false false false 0x8 [3, 232, 98, 121, 101])).events =
        [Event.frameSent true 0x8 [3, 232]] ∧
    (processFrame (Config.mk none) initState
      (Frame.mk true false false false 0x8 [3, 232, 98, 121, 101])).stream_closed =
        true := by
  have h := c3_close_frame (Config.mk none) initState [3, 232, 98, 121, 101]
    (by decide) (by decide) (by decide) rfl rfl rfl rfl rfl rfl
  refine ⟨?_, ?_, ?_, h.2.2.1⟩
  · rw [h.2.2.2.1]
    decide
  · rw [h.2.2.2.2.1]
    decide
  · rw [h.2.2.2.2.2.1]
    decide

/-- Witness for C9: closing with code 1000 and reason `bye` from a fresh
connection, then the peer's echoed close frame. -/
theorem c9_witness :
    (close (some 1000) (some [98, 121, 101]) initState).waiting = some 5 ∧
    (processFrame (Config.mk none)
      (close (some 1000) (some [98, 121, 101]) initState)
      (Frame.mk true false false false 0x8 [3, 232])).waiting = none ∧
    (processFrame (Config.mk none)
      (close (some 1000) (some [98, 121, 101]) initState)
      (Frame.mk true false false false 0x8 [3, 232])).stream_closed = true := by
  have h := c9_close_grace_period (Config.mk none) initState 1000
    (some [98, 121, 101]) [3, 232] (by decide) rfl rfl rfl rfl rfl rfl
    (by decide) (by decide) (by decide)
  exact ⟨h.1.1, h.2.1.1, h.2.1.2⟩

theorem processFrame_control_fragmented_aborts (cfg : Config) (st : WSState)
    (f : Frame) (hc : f.opcode &&& 0x8 ≠ 0) (hfin : f.fin = false) :
    (processFrame cfg st f).client_terminated = true ∧
    (processFrame cfg st f).server_terminated = true ∧
    (processFrame cfg st f).stream_closed = true := by
  simp only [processFrame, on_frame_data, hfin, hc]
  split_ifs <;> simp_all [ws_abort, close]

/-- Byte-level check of `_on_frame_start`: a control frame whose 7-bit
length field is 126 or more aborts before any further read. -/
theorem on_frame_start_control_overlong (hasD prev : Bool) (header pb : Nat)
    (hctrl : (header &&& 0x0F) &&& 0x8 ≠ 0) (hlen : 126 ≤ pb &&& 0x7F) :
    on_frame_start hasD prev header pb = none := by
  simp only [on_frame_start]
  split_ifs <;>
    first
      | rfl
      | exact absurd (And.intro hctrl hlen) (by assumption)

/-- Continuation frames (opcode 0) never touch `_frame_compressed`. -/
theorem processFrame_continuation_flag (cfg : Config) (st : WSState)
    (f : Frame) (hz : f.opcode = 0) :
    (processFrame cfg st f).frame_compressed = st.frame_compressed := by
  have h0 : (cfg.decompressor.isSome && decide ((0 : Nat) ≠ 0)) = false := by
    simp
  rcases hbuf : st.fragmented_message_buffer with _ | buf <;>
    simp only [processFrame, on_frame_data, hz, hbuf, h0, Bool.false_eq_true,
      if_false] <;>
    split_ifs <;>
    first
      | rfl
      | exact (ws_abort_preserves_frag _).2.2
      | exact (handle_message_preserves_frag _ _ _ _).2.2

/-- With a negotiated decompressor, every frame with a nonzero opcode —
data start or control frame alike — overwrites `_frame_compressed` with its
RSV1 bit. -/
theorem processFrame_nonzero_flag (cfg : Config) (st : WSState) (f : Frame)
    (hsome : cfg.decompressor.isSome = true) (hnz : f.opcode ≠ 0) :
    (processFrame cfg st f).frame_compressed = f.rsv1 := by
  have h0 : (cfg.decompressor.isSome && decide (f.opcode ≠ 0)) = true := by
    rw [hsome]
    simp [hnz]
  rcases hbuf : st.fragmented_message_buffer with _ | buf <;>
    simp only [processFrame, on_frame_data, hnz, hbuf, h0, if_true] <;>
    split_ifs <;>
    first
      | rfl
      | exact (ws_abort_preserves_frag _).2.2
      | exact (handle_message_preserves_frag _ _ _ _).2.2

/-- Byte-level reserved-bit handling of `_on_frame_start`: a reserved bit
that survives the RSV1 absorption (RSV2/RSV3 with compression and a nonzero
opcode; any bit on a continuation frame; any bit without compression)
aborts before the payload is read. -/
theorem on_frame_start_rsv_aborts (prev : Bool) (header pb : Nat) :
    (header &&& 0x0F ≠ 0 → (header &&& 0x70) &&& 0x30 ≠ 0 →
      on_frame_start true prev header pb = none) ∧
    (header &&& 0x0F = 0 → header &&& 0x70 ≠ 0 →
      on_frame_start true prev header pb = none) ∧
    (header &&& 0x70 ≠ 0 → on_frame_start false prev header pb = none) := by
  refine ⟨fun hop hbits => ?_, fun hop hbits => ?_, fun hbits => ?_⟩
  · have hcond : (true && decide (header &&& 0x0F ≠ 0)) = true := by
      simp [hop]
    simp only [on_frame_start, hcond, if_true, if_pos hbits]
  · have hcond : (true && decide (header &&& 0x0F ≠ 0)) = false := by
      simp [hop]
    simp only [on_frame_start, hcond, Bool.false_eq_true, if_false,
      if_pos hbits]
  · have hcond : (false && decide (header &&& 0x0F ≠ 0)) = false := by
      simp
    simp only [on_frame_start, hcond, Bool.false_eq_true, if_false,
      if_pos hbits]

/-- C4: the engine aborts any frame whose opcode has the 0x8 bit set when
its 7-bit length field is 126 or more (so a control payload can never
exceed 125 bytes) or when its fin bit is clear; a final control frame with
a payload of at most 125 bytes passes both checks and reaches
`_handle_message`. -/
theorem c4_control_frame_checks (cfg : Config) :
    (∀ (hasD prev : Bool) (header pb : Nat),
      (header &&& 0x0F) &&& 0x8 ≠ 0 → 126 ≤ pb &&& 0x7F →
      on_frame_start hasD prev header pb = none) ∧
    (∀ (st : WSState) (f : Frame), f.opcode &&& 0x8 ≠ 0 → f.fin = false →
      (processFrame cfg st f).client_terminated = true ∧
      (processFrame cfg st f).server_terminated = true ∧
      (processFrame cfg st f).stream_closed = true) ∧
    (∀ (st : WSState) (f : Frame), f.opcode &&& 0x8 ≠ 0 → f.fin = true →
      f.payload.length ≤ 125 →
      (if cfg.decompressor.isSome then f.rsv2 || f.rsv3
       else f.rsv1 || f.rsv2 || f.rsv3) = false →
      processFrame cfg st f =
        handle_message cfg f.opcode f.payload
          (if cfg.decompressor.isSome then
            { st with frame_compressed := f.rsv1 }
           else st)) :=
  ⟨on_frame_start_control_overlong,
   processFrame_control_fragmented_aborts cfg,
   processFrame_control_final cfg⟩

/-- Witness for C4: an overlong close header aborts, a fragmented ping
aborts, and a final 2-byte ping is dispatched. -/
theorem c4_witness :
    on_frame_start false false 0x89 0xFE = none ∧
    (processFrame (Config.mk none) initState
      (Frame.mk false false false false 0x9 [])).stream_closed = true ∧
    processFrame (Config.mk none) initState
        (Frame.mk true false false false 0x9 [1, 2]) =
      handle_message (Config.mk none) 0x9 [1, 2] initState := by
  refine ⟨(c4_control_frame_checks (Config.mk none)).1 false false 0x89 0xFE
      (by decide) (by decide),
    ((c4_control_frame_checks (Config.mk none)).2.1 initState
      (Frame.mk false false false false 0x9 []) (by decide) rfl).2.2, ?_⟩
  have h := (c4_control_frame_checks (Config.mk none)).2.2 initState
    (Frame.mk true false false false 0x9 [1, 2]) (by decide) rfl (by decide)
    (by decide)
  simpa using h

/-- C6 counterexample: with permessage-deflate negotiated, the frames
`[fin=0 rsv1=1 text 'h']  [ping]  [fin=1 continuation 'i']` deliver the
reassembled text message WITHOUT decompression — the interleaved ping
(nonzero opcode, RSV1 clear) overwrote the compressed flag that the
message's first frame had set — refuting the claim that a message is
treated as compressed exactly when RSV1 was set on its first frame. -/
theorem c6_counterexample :
    (processFrames (Config.mk (some (fun data => 255 :: data))) initState
        [Frame.mk false true false false 0x1 [104],
         Frame.mk true false false false 0x9 [],
         Frame.mk true false false false 0x0 [105]]).events =
      [Event.frameSent true 0xA [], Event.message 0x1 [104, 105]] ∧
    (processFrames (Config.mk (some (fun data => 255 :: data))) initState
        [Frame.mk false true false false 0x1 [104],
         Frame.mk true false false false 0x9 [],
         Frame.mk true false false false 0x0 [105]]).events ≠
      [Event.frameSent true 0xA [],
       Event.message 0x1 ((fun data => 255 :: data) [104, 105])] := by
  constructor
  · decide
  · decide

/-- C6 (amended): with compression negotiated, every frame with a nonzero
opcode — the start of a data message, but also any interleaved control
frame — refreshes the compressed flag from its own RSV1 bit, and
continuation frames never change it; hence, in a message with no
interleaved control frames, the reassembled payload is decompressed before
dispatch exactly when RSV1 was set on the message's first frame; a
reserved bit that survives the RSV1 absorption (or any reserved bit when
no compression is negotiated) aborts before the payload is read. -/
theorem c6_compression_flag (cfg : Config) :
    (∀ (st : WSState) (f : Frame), f.opcode = 0 →
      (processFrame cfg st f).frame_compressed = st.frame_compressed) ∧
    (∀ (st : WSState) (f : Frame), cfg.decompressor.isSome = true →
      f.opcode ≠ 0 → (processFrame cfg st f).frame_compressed = f.rsv1) ∧
    (∀ (prev : Bool) (header pb : Nat), header &&& 0x0F ≠ 0 →
      (header &&& 0x70) &&& 0x30 ≠ 0 →
      on_frame_start true prev header pb = none) ∧
    (∀ (prev : Bool) (header pb : Nat), header &&& 0x0F = 0 →
      header &&& 0x70 ≠ 0 → on_frame_start true prev header pb = none) ∧
    (∀ (prev : Bool) (header pb : Nat), header &&& 0x70 ≠ 0 →
      on_frame_start false prev header pb = none) ∧
    (∀ (st : WSState) (inflate : List Nat → List Nat) (op : Nat)
        (first last : List Nat) (mids : List (List Nat)) (r : Bool),
      cfg.decompressor = some inflate →
      st.client_terminated = false →
      st.fragmented_message_buffer = none →
      op &&& 0x8 = 0 → op ≠ 0 →
      (op = 0x1 ∧ utf8Valid
          (if r then inflate (first ++ (mids.flatten ++ last))
           else first ++ (mids.flatten ++ last)) = true ∨ op = 0x2) →
      (processFrames cfg st
          (Frame.mk false r false false op first ::
            (mids.map (fun d => Frame.mk false false false false 0 d) ++
              [Frame.mk true false false false 0 last]))).events =
        st.events ++ [Event.message op
          (if r then inflate (first ++ (mids.flatten ++ last))
           else first ++ (mids.flatten ++ last))]) := by
  refine ⟨processFrame_continuation_flag cfg, processFrame_nonzero_flag cfg,
    fun prev header pb => (on_frame_start_rsv_aborts prev header pb).1,
    fun prev header pb => (on_frame_start_rsv_aborts prev header pb).2.1,
    fun prev header pb => (on_frame_start_rsv_aborts prev header pb).2.2, ?_⟩
  intro st inflate op first last mids r hd hct hbuf hnc hnz hv
  have hsome : cfg.decompressor.isSome = true := by
    rw [hd]
    rfl
  have hwhole : processFrames cfg st
      (Frame.mk false r false false op first ::
        (mids.map (fun d => Frame.mk false false false false 0 d) ++
          [Frame.mk true false false false 0 last])) =
      { st with
          frame_compressed := r,
          fragmented_message_opcode := some op,
          fragmented_message_buffer := none,
          events := st.events ++
            [Event.message op
              (if r then inflate (first ++ (mids.flatten ++ last))
               else first ++ (mids.flatten ++ last))] } := by
    simp only [processFrames]
    rw [processFrame_fragment_start cfg st op first r hbuf hnc hnz
      (Or.inl hsome)]
    rw [show (if cfg.decompressor.isSome then r else st.frame_compressed) = r
      by simp [hsome]]
    rw [if_neg (by simp [hct])]
    refine (processFrames_continuation_run cfg mids
      { st with
          frame_compressed := r,
          fragmented_message_opcode := some op,
          fragmented_message_buffer := some first }
      first hct rfl _).trans ?_
    simp only [processFrames]
    rw [processFrame_final_continuation cfg _ last (first ++ mids.flatten) rfl]
    rw [ite_self]
    refine (handle_message_data_spec cfg
      { st with
          frame_compressed := r,
          fragmented_message_opcode := some op,
          fragmented_message_buffer := none }
      op (first ++ mids.flatten ++ last) hct ?_).trans ?_
    · simpa [hd, List.append_assoc] using hv
    · simp [hd, List.append_assoc]
  rw [hwhole]

/-- Witness for C6: a compressed binary message in two fragments, inflated
(by the stand-in inflater prepending byte 255) before dispatch. -/
theorem c6_witness :
    (processFrames (Config.mk (some (fun data => 255 :: data))) initState
        (Frame.mk false true false false 0x2 [10] ::
          (([] : List (List Nat)).map
              (fun d => Frame.mk false false false false 0 d) ++
            [Frame.mk true false false false 0 [20]]))).events =
      [Event.message 0x2 [255, 10, 20]] := by
  have h := (c6_compression_flag
      (Config.mk (some (fun data => 255 :: data)))).2.2.2.2.2 initState
    (fun data => 255 :: data) 0x2 [10] [20] [] true rfl rfl rfl (by decide)
    (by decide) (Or.inr rfl)
  rw [h]
  decide

theorem websocket_mask_from_length (mask : List Nat) :
    ∀ (i : Nat) (data : List Nat),
      (websocket_mask_from mask i data).length = data.length := by
  intro i data
  induction data generalizing i with
  | nil => rfl
  | cons b bs ih => simp [websocket_mask_from, ih]

/-- Masking does not change the payload length. -/
theorem websocket_mask_length (mask data : List Nat) :
    (websocket_mask mask data).length = data.length :=
  websocket_mask_from_length mask 0 data

/-- Bit facts about the second header byte for a 7-bit length field. -/
theorem lenbyte_facts : ∀ l, l < 126 →
    (l ||| 0x80) &&& 0x80 = 0x80 ∧ (l ||| 0x80) &&& 0x7F = l ∧
    (l ||| 0) &&& 0x80 = 0 ∧ (l ||| 0) &&& 0x7F = l := by decide

/-- The 2-byte extended length decodes back to the encoded value. -/
theorem decodeBE_pack16 (n : Nat) (h : n ≤ 0xFFFF) :
    decodeBE (pack16be n) = n := by
  simp only [decodeBE, pack16be, List.foldl]
  omega

/-- The 8-byte extended length decodes back to the encoded value. -/
theorem decodeBE_pack64 (n : Nat) (h : n < 2 ^ 64) :
    decodeBE (pack64be n) = n := by
  simp only [decodeBE, pack64be, List.foldl]
  omega

/-- C5: `write_message` emits exactly one frame: the fin bit is set, the
opcode is 0x2 for binary and 0x1 for text, the reserved bits are clear;
the payload length is carried in the 7-bit field when below 126, in a
2-byte big-endian field behind marker 126 up to 0xFFFF, and in an 8-byte
big-endian field behind marker 127 beyond that; the second byte's mask bit
is set and a 4-byte mask plus the masked payload follow the header exactly
when `mask_outgoing` holds (client side), and the bare payload follows
with a clear mask bit on the server side. -/
theorem c5_write_message_format (mask_outgoing binary : Bool)
    (mask message : List Nat) (hmask : mask.length = 4)
    (hlen64 : message.length < 2 ^ 64) :
    (message.length < 126 →
      write_message mask_outgoing none mask message binary =
        (0x80 ||| (if binary then 0x2 else 0x1)) ::
          (message.length ||| (if mask_outgoing then 0x80 else 0)) ::
          (if mask_outgoing then mask ++ websocket_mask mask message
           else message)) ∧
    (126 ≤ message.length → message.length ≤ 0xFFFF →
      write_message mask_outgoing none mask message binary =
        (0x80 ||| (if binary then 0x2 else 0x1)) ::
          (126 ||| (if mask_outgoing then 0x80 else 0)) ::
          (pack16be message.length ++
            (if mask_outgoing then mask ++ websocket_mask mask message
             else message))) ∧
    (0xFFFF < message.length →
      write_message mask_outgoing none mask message binary =
        (0x80 ||| (if binary then 0x2 else 0x1)) ::
          (127 ||| (if mask_outgoing then 0x80 else 0)) ::
          (pack64be message.length ++
            (if mask_outgoing then mask ++ websocket_mask mask message
             else message))) ∧
    ((0x80 ||| (if binary then 0x2 else 0x1)) &&& 0x80 = 0x80 ∧
     (0x80 ||| (if binary then 0x2 else 0x1)) &&& 0x0F =
       (if binary then 0x2 else 0x1) ∧
     (0x80 ||| (if binary then 0x2 else 0x1)) &&& 0x70 = 0) ∧
    (message.length < 126 →
      (message.length ||| (if mask_outgoing then 0x80 else 0)) &&& 0x80 =
        (if mask_outgoing then 0x80 else 0) ∧
      (message.length ||| (if mask_outgoing then 0x80 else 0)) &&& 0x7F =
        message.length) ∧
    ((126 ||| (if mask_outgoing then 0x80 else 0)) &&& 0x80 =
       (if mask_outgoing then 0x80 else 0) ∧
     (126 ||| (if mask_outgoing then 0x80 else 0)) &&& 0x7F = 126) ∧
    ((127 ||| (if mask_outgoing then 0x80 else 0)) &&& 0x80 =
       (if mask_outgoing then 0x80 else 0) ∧
     (127 ||| (if mask_outgoing then 0x80 else 0)) &&& 0x7F = 127) ∧
    (message.length ≤ 0xFFFF →
      decodeBE (pack16be message.length) = message.length) ∧
    decodeBE (pack64be message.length) = message.length ∧
    (if mask_outgoing then mask ++ websocket_mask mask message
     else message).length =
      (if mask_outgoing then 4 else 0) + message.length := by
  refine ⟨?_, ?_, ?_, ?_, ?_, ?_, ?_,
    fun h => decodeBE_pack16 _ h, decodeBE_pack64 _ hlen64, ?_⟩
  · intro h
    simp [write_message, write_frame, h]
  · intro h1 h2
    simp [write_message, write_frame,
      if_neg (by omega : ¬ message.length < 126), h2]
  · intro h
    simp [write_message, write_frame,
      if_neg (by omega : ¬ message.length < 126),
      if_neg (by omega : ¬ message.length ≤ 0xFFFF)]
  · rcases binary <;> decide
  · intro h
    rcases mask_outgoing
    · exact ⟨(lenbyte_facts _ h).2.2.1, (lenbyte_facts _ h).2.2.2⟩
    · exact ⟨(lenbyte_facts _ h).1, (lenbyte_facts _ h).2.1⟩
  · rcases mask_outgoing <;> exact ⟨by decide, by decide⟩
  · rcases mask_outgoing <;> exact ⟨by decide, by decide⟩
  · rcases mask_outgoing
    · simp
    · simp [websocket_mask_length, hmask]

/-- Witness for C5: a 3-byte binary message on the client side with mask
`[1, 2, 3, 4]`. -/
theorem c5_witness :
    write_message true none [1, 2, 3, 4] [5, 6, 7] true =
      [0x82, 0x83, 1, 2, 3, 4, 4, 4, 4] := by
  have h := (c5_write_message_format true true [1, 2, 3, 4] [5, 6, 7] rfl
    (by decide)).1 (by decide)
  rw [h]
  decide

end Tornado
